import Mathlib

/-!
Shallow embedding of the zod-rpc Channel core (src/unnamed/part_023, first
Channel variant, together with src/src/errors.ts and src/src/types.ts).

Modelling conventions:
* JavaScript runtime values that cross the wire (payloads, error-envelope
  fields) are modelled by the inductive `JSValue`; JS truthiness and the
  `||` default operator are modelled explicitly (`JSValue.truthy`, `jsOr`).
* Zod schemas (`ZodSchema.parse`) are modelled as functions
  `JSValue → Except String JSValue`: `.ok v` is the parsed value, `.error m`
  is a thrown `z.ZodError` carrying message `m`.
* A thrown JS value is modelled by `JSError`: an `RPCError` (or subclass),
  a `z.ZodError`, some other `Error`, or a non-`Error` value.
* `Map` objects (`methods`, `pendingCalls`) are modelled as association
  lists with `Map.prototype.get/set/delete` semantics; the `Set` of
  transports is a list of transport identifiers (`Nat`).
* Side effects (calling `transport.send`, `clearTimeout`, resolving or
  rejecting the caller of `invoke`, `console.error`) are recorded as an
  ordered list of `Event`s; state changes are explicit `ChannelState`
  transitions.
* `setTimeout` timer callbacks are modelled by `fireTimeout`: the timer of a
  pending call is alive exactly while its entry is in the table (the source
  clears the timer whenever it removes an entry), and the closure-captured
  `timeoutMs` is stored in the entry.
* `generateTraceId` (wall clock + randomness) is modelled by passing the
  fresh trace id as an argument to `invoke`.
-/

/-- JavaScript runtime value, as far as the Channel inspects one. -/
inductive JSValue where
  | vUndefined : JSValue
  | vNull : JSValue
  | vBool (b : Bool) : JSValue
  | vNum (n : Int) : JSValue
  | vStr (s : String) : JSValue
  | vObj (fields : List (String × JSValue)) : JSValue
deriving Repr

/-- JS truthiness of a value. -/
def JSValue.truthy : JSValue → Bool
  | .vUndefined => false
  | .vNull => false
  | .vBool b => b
  | .vNum n => n != 0
  | .vStr s => s != ""
  | .vObj _ => true

/-- Property access `v?.k`: field of an object, `undefined` otherwise. -/
def JSValue.getField : JSValue → String → JSValue
  | .vObj fields, k =>
    match fields.find? (fun p => p.1 == k) with
    | some p => p.2
    | none => .vUndefined
  | _, _ => .vUndefined

/-- The JS `||` operator with a default: `a || b`. -/
def jsOr (v d : JSValue) : JSValue :=
  if v.truthy then v else d

/-- JS `String(v)` conversion (the `Error` constructor coerces its message). -/
def JSValue.jsToString : JSValue → String
  | .vUndefined => "undefined"
  | .vNull => "null"
  | .vBool b => if b then "true" else "false"
  | .vNum n => toString n
  | .vStr s => s
  | .vObj _ => "[object Object]"

/-- A single-quote, as it appears in source error messages. -/
def apos : String := String.singleton (Char.ofNat 39)

/-- An `RPCError` instance (src/src/errors.ts): `name`, `code`, `message`,
optional `traceId`. The `code` stays a raw JS value (the class field is not
coerced), while `message` is a string (the `Error` constructor coerces it). -/
structure RPCErrorV where
  name : String
  code : JSValue
  message : String
  traceId : Option String
deriving Repr

/-- The `RPCError` base-class constructor. -/
def mkRPCError (code : JSValue) (message : String) (traceId : Option String) : RPCErrorV :=
  ⟨"RPCError", code, message, traceId⟩

/-- The `ValidationError` subclass constructor. -/
def mkValidationError (message : String) (traceId : Option String) : RPCErrorV :=
  ⟨"ValidationError", .vStr "VALIDATION_ERROR", message, traceId⟩

/-- The `TransportError` subclass constructor. -/
def mkTransportError (message : String) (traceId : Option String) : RPCErrorV :=
  ⟨"TransportError", .vStr "TRANSPORT_ERROR", message, traceId⟩

/-- The `MethodNotFoundError` subclass constructor. -/
def mkMethodNotFoundError (methodId : String) (traceId : Option String) : RPCErrorV :=
  ⟨"MethodNotFoundError", .vStr "METHOD_NOT_FOUND",
    "Method " ++ apos ++ methodId ++ apos ++ " not found", traceId⟩

/-- The `TimeoutError` subclass constructor. -/
def mkTimeoutError (message : String) (traceId : Option String) : RPCErrorV :=
  ⟨"TimeoutError", .vStr "TIMEOUT_ERROR", message, traceId⟩

/-- `RPCError.toJSON`: the error-envelope wire payload. -/
def RPCErrorV.toJSON (e : RPCErrorV) : JSValue :=
  .vObj [("name", .vStr e.name), ("code", e.code), ("message", .vStr e.message),
    ("traceId", match e.traceId with | some t => .vStr t | none => .vUndefined)]

/-- A thrown JS value, classified the way the Channel inspects it with
`instanceof`. -/
inductive JSError where
  | rpc (e : RPCErrorV) : JSError
  | zod (message : String) : JSError
  | raw (message : String) : JSError
  | nonError (v : JSValue) : JSError
deriving Repr

/-- Whether a thrown value is an `RPCError` instance (taxonomy error). -/
def JSError.isTaxonomy : JSError → Bool
  | .rpc _ => true
  | _ => false

/-- Message type tag of an envelope. -/
inductive MsgType where
  | request : MsgType
  | response : MsgType
  | error : MsgType
deriving Repr, DecidableEq

/-- The wire envelope `RPCMessage` (src/src/types.ts). -/
structure RPCMessage where
  callerId : String
  targetId : String
  traceId : String
  methodId : String
  payload : JSValue
  type : MsgType
deriving Repr

/-- A Zod schema, reduced to its `parse` entry point. -/
def Schema : Type := JSValue → Except String JSValue

/-- A registered method (`MethodDefinition`): id, target, input and output
schemas, and the handler (which may throw any JS value). -/
structure MethodDef where
  id : String
  targetId : String
  input : Schema
  output : Schema
  handler : JSValue → Except JSError JSValue

/-- One entry of the pending-call map: the caller-supplied output schema
captured by the stored `resolve` closure, and the `timeoutMs` captured by
the timer callback (the timer handle itself). -/
structure PendingEntry where
  outputSchema : Option Schema
  timeoutMs : Nat

/-- `Map.prototype.get` on an association list. -/
def getAssoc {α : Type} (l : List (String × α)) (k : String) : Option α :=
  match l.find? (fun p => p.1 == k) with
  | some p => some p.2
  | none => none

/-- `Map.prototype.set` on an association list: update in place if the key
exists, else append. -/
def setAssoc {α : Type} (l : List (String × α)) (k : String) (v : α) : List (String × α) :=
  if l.any (fun p => p.1 == k) then
    l.map (fun p => if p.1 == k then (k, v) else p)
  else
    l ++ [(k, v)]

/-- `Map.prototype.delete` on an association list. -/
def eraseAssoc {α : Type} (l : List (String × α)) (k : String) : List (String × α) :=
  l.filter (fun p => p.1 != k)

/-- The mutable state of a `Channel` instance. Methods are keyed by the
concatenated string `targetId ++ ":" ++ methodId`, exactly as the source
builds its map key. -/
structure ChannelState where
  channelId : String
  defaultTimeout : Nat
  methods : List (String × MethodDef)
  pendingCalls : List (String × PendingEntry)
  transports : List Nat
  connected : Bool

/-- Observable effects of a Channel operation, in program order. -/
inductive Event where
  | sendEnvelope (transport : Nat) (msg : RPCMessage) : Event
  | clearTimer (traceId : String) : Event
  | resolveCaller (traceId : String) (value : JSValue) : Event
  | rejectCaller (traceId : String) (err : JSError) : Event
  | transportDisconnect (transport : Nat) : Event
  | consoleError (text : String) : Event

/-- Outcome of a call to `invoke`, as seen by the caller of the returned
promise at the end of the synchronous part of `invoke`. -/
inductive InvokeOutcome where
  | resolved (value : JSValue) : InvokeOutcome
  | rejectedNow (err : JSError) : InvokeOutcome
  | pendingSent (traceId : String) : InvokeOutcome

/-- `timeout || this.defaultTimeout` (JS: an absent or zero override falls
back to the default). -/
def effectiveTimeout (timeout : Option Nat) (dflt : Nat) : Nat :=
  match timeout with
  | some t => if t = 0 then dflt else t
  | none => dflt

/-- The try block of the local short-circuit in `invoke`: parse the input
with the method schema, run the handler, parse the output with the method
schema, then with the caller schema if supplied. Schema failures are thrown
`z.ZodError`s. -/
def runLocalTry (m : MethodDef) (input : JSValue) (outputSchema : Option Schema) :
    Except JSError JSValue :=
  match m.input input with
  | .error ze => .error (.zod ze)
  | .ok validatedInput =>
    match m.handler validatedInput with
    | .error e => .error e
    | .ok result =>
      match m.output result with
      | .error ze => .error (.zod ze)
      | .ok validatedOutput =>
        match outputSchema with
        | some sch =>
          match sch validatedOutput with
          | .error ze => .error (.zod ze)
          | .ok v => .ok v
        | none => .ok validatedOutput

/-- The local short-circuit of `invoke` including its catch clause:
`z.ZodError`s become `ValidationError`s tagged with the trace id, every
other thrown value propagates as-is. -/
def runLocal (m : MethodDef) (input : JSValue) (outputSchema : Option Schema)
    (traceId : String) : InvokeOutcome :=
  match runLocalTry m input outputSchema with
  | .ok v => .resolved v
  | .error (.zod zm) =>
    .rejectedNow (.rpc (mkValidationError ("Local method validation failed: " ++ zm)
      (some traceId)))
  | .error e => .rejectedNow e

/-- The part of `Channel.invoke` after the optional caller-input validation
(src/unnamed/part_023 lines 81-147): local short-circuit if the method is
registered, otherwise build the request envelope, register the pending call
and its timer, and fan the envelope out to every attached transport —
rejecting the promise with a plain `Error` when no transport is attached. -/
def Channel.invokeAfterInputCheck (st : ChannelState) (traceId targetId methodId : String)
    (input : JSValue) (outputSchema : Option Schema) (timeout : Option Nat) :
    ChannelState × List Event × InvokeOutcome :=
  let localKey := targetId ++ ":" ++ methodId
  match getAssoc st.methods localKey with
  | some localMethod => (st, [], runLocal localMethod input outputSchema traceId)
  | none =>
    let message : RPCMessage :=
      ⟨st.channelId, targetId, traceId, methodId, input, .request⟩
    let timeoutMs := effectiveTimeout timeout st.defaultTimeout
    let st1 := { st with
      pendingCalls := setAssoc st.pendingCalls traceId ⟨outputSchema, timeoutMs⟩ }
    if st.transports.length = 0 then
      (st1, [], .rejectedNow (.raw "No transports connected"))
    else
      (st1, st.transports.map (fun t => Event.sendEnvelope t message),
        .pendingSent traceId)

/-- `Channel.invoke` (src/unnamed/part_023 lines 63-148): the synchronous
part of the call, returning the new state, the emitted effects, and the
outcome of the returned promise. `traceId` stands for the value of
`this.generateTraceId()`. -/
def Channel.invoke (st : ChannelState) (traceId targetId methodId : String)
    (input : JSValue) (inputSchema outputSchema : Option Schema)
    (timeout : Option Nat) : ChannelState × List Event × InvokeOutcome :=
  match inputSchema with
  | some sch =>
    match sch input with
    | .error ze =>
      (st, [], .rejectedNow (.rpc (mkValidationError
        ("Input validation failed: " ++ ze) (some traceId))))
    | .ok _ => Channel.invokeAfterInputCheck st traceId targetId methodId input
        outputSchema timeout
  | none => Channel.invokeAfterInputCheck st traceId targetId methodId input
      outputSchema timeout

/-- The timer callback installed by `invoke` (src/unnamed/part_023 lines
116-119): delete the pending entry and reject with a `TimeoutError` whose
message carries the captured `timeoutMs`. A cancelled timer never runs, and
the source cancels the timer exactly when it removes the entry, so the
callback can only run while the entry is still present. -/
def Channel.fireTimeout (st : ChannelState) (traceId : String) :
    ChannelState × List Event :=
  match getAssoc st.pendingCalls traceId with
  | none => (st, [])
  | some entry =>
    ({ st with pendingCalls := eraseAssoc st.pendingCalls traceId },
      [.rejectCaller traceId (.rpc (mkTimeoutError
        ("Method call timed out after " ++ toString entry.timeoutMs ++ "ms")
        (some traceId)))])

/-- The stored `resolve` closure of a pending call (src/unnamed/part_023
lines 122-133): validate the value against the caller-supplied output schema
when present, rejecting with a `ValidationError` when it fails. -/
def resolvePending (entry : PendingEntry) (traceId : String) (value : JSValue) : Event :=
  match entry.outputSchema with
  | some sch =>
    match sch value with
    | .ok validated => .resolveCaller traceId validated
    | .error ze =>
      .rejectCaller traceId (.rpc (mkValidationError
        ("Output validation failed: " ++ ze) (some traceId)))
  | none => .resolveCaller traceId value

/-- `Channel.handleResponse` (src/unnamed/part_023 lines 222-229): when a
pending call matches the trace id, cancel its timer, remove it, and run its
success continuation; otherwise do nothing. -/
def Channel.handleResponse (st : ChannelState) (message : RPCMessage) :
    ChannelState × List Event :=
  match getAssoc st.pendingCalls message.traceId with
  | none => (st, [])
  | some pending =>
    ({ st with pendingCalls := eraseAssoc st.pendingCalls message.traceId },
      [.clearTimer message.traceId, resolvePending pending message.traceId message.payload])

/-- Error reconstruction in `Channel.handleError` (src/unnamed/part_023
lines 237-241): `new RPCError(payload?.code || UNKNOWN_ERROR,
payload?.message || fallback, traceId)`; the `Error` constructor coerces the
message to a string. -/
def reconstructError (payload : JSValue) (traceId : String) : RPCErrorV :=
  mkRPCError (jsOr (payload.getField "code") (.vStr "UNKNOWN_ERROR"))
    (jsOr (payload.getField "message") (.vStr "Unknown error occurred")).jsToString
    (some traceId)

/-- `Channel.handleError` (src/unnamed/part_023 lines 231-245): when a
pending call matches the trace id, cancel its timer, remove it, and reject
it with the error reconstructed from the payload; otherwise do nothing. -/
def Channel.handleError (st : ChannelState) (message : RPCMessage) :
    ChannelState × List Event :=
  match getAssoc st.pendingCalls message.traceId with
  | none => (st, [])
  | some _ =>
    ({ st with pendingCalls := eraseAssoc st.pendingCalls message.traceId },
      [.clearTimer message.traceId,
        .rejectCaller message.traceId (.rpc (reconstructError message.payload message.traceId))])

/-- Behaviour of the attached transports during one operation: what
`transport.send` does for each transport and message (`none` = the returned
promise fulfils, `some e` = it rejects with `e`). -/
def SendBehaviour : Type := Nat → RPCMessage → Option JSError

/-- A sequential `for … await transport.send(msg)` loop over the attached
transports, stopping at the first rejection (which is thrown into the
enclosing try). Returns the send events that happened and the thrown
rejection, if any. -/
def sendSeq (transports : List Nat) (beh : SendBehaviour) (msg : RPCMessage) :
    List Event × Option JSError :=
  match transports with
  | [] => ([], none)
  | t :: ts =>
    match beh t msg with
    | some e => ([.sendEnvelope t msg], some e)
    | none =>
      let rest := sendSeq ts beh msg
      (.sendEnvelope t msg :: rest.1, rest.2)

/-- `Channel.sendError` (src/unnamed/part_023 lines 247-265): build the
error envelope addressed to the original caller and send it to every
attached transport; a send failure is logged and swallowed. -/
def Channel.sendError (st : ChannelState) (beh : SendBehaviour)
    (originalMessage : RPCMessage) (error : RPCErrorV) : List Event :=
  let errorMessage : RPCMessage :=
    ⟨st.channelId, originalMessage.callerId, originalMessage.traceId,
      originalMessage.methodId, error.toJSON, .error⟩
  let sent := sendSeq st.transports beh errorMessage
  match sent.2 with
  | none => sent.1
  | some _ => sent.1 ++ [.consoleError "Failed to send error message:"]

/-- The catch clause of `Channel.handleRequest` (src/unnamed/part_023 lines
204-216): an `RPCError` is forwarded as-is, a `z.ZodError` becomes a
`ValidationError`, any other thrown value is wrapped as `INTERNAL_ERROR`
with its message (or the fallback literal for a non-`Error` value). -/
def classifyCaught (e : JSError) (traceId : String) : RPCErrorV :=
  match e with
  | .rpc r => r
  | .zod zm => mkValidationError zm (some traceId)
  | .raw m => mkRPCError (.vStr "INTERNAL_ERROR") m (some traceId)
  | .nonError _ => mkRPCError (.vStr "INTERNAL_ERROR") "Unknown error" (some traceId)

/-- `Channel.handleRequest` (src/unnamed/part_023 lines 177-220): look up
the method under `targetId:methodId`; unknown methods get a
`MethodNotFoundError` envelope back; otherwise validate, run the handler,
validate the output, and send the response envelope to every attached
transport — any value thrown inside the try block, including a rejection of
`transport.send` on the response itself, is classified and sent back as an
error envelope for the same trace id. -/
def Channel.handleRequest (st : ChannelState) (beh : SendBehaviour)
    (message : RPCMessage) : List Event :=
  let key := message.targetId ++ ":" ++ message.methodId
  match getAssoc st.methods key with
  | none =>
    Channel.sendError st beh message
      (mkMethodNotFoundError message.methodId (some message.traceId))
  | some method =>
    match method.input message.payload with
    | .error ze =>
      Channel.sendError st beh message (classifyCaught (.zod ze) message.traceId)
    | .ok validatedInput =>
      match method.handler validatedInput with
      | .error e => Channel.sendError st beh message (classifyCaught e message.traceId)
      | .ok result =>
        match method.output result with
        | .error ze =>
          Channel.sendError st beh message (classifyCaught (.zod ze) message.traceId)
        | .ok validatedOutput =>
          let response : RPCMessage :=
            ⟨st.channelId, message.callerId, message.traceId, message.methodId,
              validatedOutput, .response⟩
          let sent := sendSeq st.transports beh response
          match sent.2 with
          | none => sent.1
          | some e =>
            sent.1 ++ Channel.sendError st beh message (classifyCaught e message.traceId)

/-- `Channel.handleMessage` (src/unnamed/part_023 lines 159-175): dispatch
on the envelope type. The embedded handlers never throw, so the outer catch
never fires in the model. -/
def Channel.handleMessage (st : ChannelState) (beh : SendBehaviour)
    (message : RPCMessage) : ChannelState × List Event :=
  match message.type with
  | .request => (st, Channel.handleRequest st beh message)
  | .response => Channel.handleResponse st message
  | .error => Channel.handleError st message

/-- `Channel.disconnect` (src/unnamed/part_023 lines 41-54): for every
pending call, clear its timer and reject it with
`TimeoutError("Connection closed", traceId)`; clear the table; disconnect
every attached transport; clear the transport set; mark disconnected. -/
def Channel.disconnect (st : ChannelState) : ChannelState × List Event :=
  let drain := st.pendingCalls.flatMap (fun p =>
    [Event.clearTimer p.1,
      Event.rejectCaller p.1 (.rpc (mkTimeoutError "Connection closed" (some p.1)))])
  let discs := st.transports.map Event.transportDisconnect
  ({ st with pendingCalls := [], transports := [], connected := false },
    drain ++ discs)

/-! Helper lemmas about the map model and shared sample data. -/

theorem getAssoc_map_update {α : Type} (l : List (String × α)) (k : String) (v : α)
    (h : l.any (fun p => p.1 == k) = true) :
    getAssoc (l.map (fun p => if p.1 == k then (k, v) else p)) k = some v := by
  induction l with
  | nil => simp at h
  | cons p tl ih =>
    by_cases hp : p.1 == k
    · simp [getAssoc, List.find?, hp]
    · simp only [List.any_cons, Bool.or_eq_true] at h
      have h2 := h.resolve_left (by simpa using hp)
      simp only [List.map_cons, if_neg hp]
      simpa [getAssoc, List.find?, hp] using ih h2

theorem getAssoc_append_single {α : Type} (l : List (String × α)) (k : String) (v : α)
    (h : l.any (fun p => p.1 == k) = false) :
    getAssoc (l ++ [(k, v)]) k = some v := by
  induction l with
  | nil => simp [getAssoc, List.find?]
  | cons p tl ih =>
    simp only [List.any_cons, Bool.or_eq_false_iff] at h
    simp only [List.cons_append]
    simpa [getAssoc, List.find?, h.1] using ih h.2

theorem getAssoc_setAssoc_self {α : Type} (l : List (String × α)) (k : String) (v : α) :
    getAssoc (setAssoc l k v) k = some v := by
  unfold setAssoc
  by_cases h : l.any (fun p => p.1 == k)
  · rw [if_pos h]; exact getAssoc_map_update l k v h
  · rw [if_neg h]
    exact getAssoc_append_single l k v (by rwa [Bool.not_eq_true] at h)

theorem getAssoc_eraseAssoc_self {α : Type} (l : List (String × α)) (k : String) :
    getAssoc (eraseAssoc l k) k = none := by
  have hf : List.find? (fun p => p.1 == k) (eraseAssoc l k) = none := by
    rw [List.find?_eq_none]
    intro x hx
    have hkeep := List.of_mem_filter hx
    simp only [bne_iff_ne, ne_eq] at hkeep
    simp [hkeep]
  simp [getAssoc, hf]

theorem sendSeq_all_ok (ts : List Nat) (beh : SendBehaviour) (msg : RPCMessage)
    (h : ∀ t, beh t msg = none) :
    sendSeq ts beh msg = (ts.map (fun t => Event.sendEnvelope t msg), none) := by
  induction ts with
  | nil => rfl
  | cons t tl ih => simp [sendSeq, h t, ih]

theorem invoke_eq_afterCheck (st : ChannelState) (traceId targetId methodId : String)
    (input : JSValue) (inputSchema outputSchema : Option Schema) (timeout : Option Nat)
    (hin : ∀ sch, inputSchema = some sch → ∃ v, sch input = Except.ok v) :
    Channel.invoke st traceId targetId methodId input inputSchema outputSchema timeout
      = Channel.invokeAfterInputCheck st traceId targetId methodId input outputSchema
          timeout := by
  cases inputSchema with
  | none => rfl
  | some sch =>
    obtain ⟨v, hv⟩ := hin sch rfl
    simp [Channel.invoke, hv]

/-- A sample empty channel: no methods, no pending calls, no transports. -/
def sampleState : ChannelState := ⟨"chan-a", 30000, [], [], [], true⟩

/-- A schema whose parse always throws. -/
def failSchema : Schema := fun _ => .error "bad input"

/-- A schema whose parse accepts everything unchanged. -/
def idSchema : Schema := fun v => .ok v

/-- A sample registered method echoing its input. -/
def sampleMethod : MethodDef :=
  ⟨"m.echo", "svc", idSchema, idSchema, fun v => .ok v⟩

/-- A sample channel with `sampleMethod` registered and no transports. -/
def stateWithMethod : ChannelState :=
  ⟨"chan-a", 30000, [("svc:m.echo", sampleMethod)], [], [], true⟩

/-- Failing the caller-supplied input schema makes `invoke` reject with a
`ValidationError` immediately, with no state change and no effect. -/
theorem invoke_input_fail_eq
    (st : ChannelState) (traceId targetId methodId : String) (input : JSValue)
    (sch : Schema) (outputSchema : Option Schema) (timeout : Option Nat)
    (ze : String) (h : sch input = Except.error ze) :
    Channel.invoke st traceId targetId methodId input (some sch) outputSchema timeout
      = (st, [], .rejectedNow (.rpc (mkValidationError
          ("Input validation failed: " ++ ze) (some traceId)))) := by
  simp [Channel.invoke, h]

/-- C4: invoking with an input that fails the caller-supplied input
validator rejects with a `VALIDATION_ERROR` carrying the fresh trace id,
leaves the channel state (method registry, pending-call table, transports)
untouched, emits no effect (no handler run, no envelope sent, no pending
entry or timer registered). -/
theorem invoke_input_validation_precedence
    (st : ChannelState) (traceId targetId methodId : String) (input : JSValue)
    (sch : Schema) (outputSchema : Option Schema) (timeout : Option Nat)
    (ze : String) (h : sch input = Except.error ze) :
    Channel.invoke st traceId targetId methodId input (some sch) outputSchema timeout
      = (st, [], .rejectedNow (.rpc (mkValidationError
          ("Input validation failed: " ++ ze) (some traceId)))) :=
  invoke_input_fail_eq st traceId targetId methodId input sch outputSchema timeout ze h

/-- Witness for C4 at a concrete channel, schema and input. -/
theorem invoke_input_validation_precedence_witness :
    Channel.invoke stateWithMethod "t4" "svc" "m.echo" (.vStr "x") (some failSchema)
        none none
      = (stateWithMethod, [], .rejectedNow (.rpc (mkValidationError
          ("Input validation failed: " ++ "bad input") (some "t4")))) :=
  invoke_input_validation_precedence stateWithMethod "t4" "svc" "m.echo" (.vStr "x")
    failSchema none none "bad input" rfl

/-- C5: invoking a locally registered `(targetId, methodId)` executes
entirely in-process: the state is unchanged (pending-call table and timers
neither read nor written), no envelope is constructed and no transport
`send` happens (no events), and the outcome `runLocal …` depends only on the
method, the input, the caller output schema and the trace id — in
particular not on the attached transports, so it is identical with zero or
more transports attached. -/
theorem invoke_local_short_circuit
    (st : ChannelState) (traceId targetId methodId : String) (input : JSValue)
    (inputSchema outputSchema : Option Schema) (timeout : Option Nat) (m : MethodDef)
    (hm : getAssoc st.methods (targetId ++ ":" ++ methodId) = some m)
    (hin : ∀ sch, inputSchema = some sch → ∃ v, sch input = Except.ok v) :
    Channel.invoke st traceId targetId methodId input inputSchema outputSchema timeout
      = (st, [], runLocal m input outputSchema traceId) := by
  rw [invoke_eq_afterCheck st traceId targetId methodId input inputSchema outputSchema
    timeout hin]
  simp [Channel.invokeAfterInputCheck, hm]

/-- Witness for C5: the sample echo method runs locally on a channel with
zero transports. -/
theorem invoke_local_short_circuit_witness :
    Channel.invoke stateWithMethod "t5" "svc" "m.echo" (.vStr "x") none none none
      = (stateWithMethod, [], runLocal sampleMethod (.vStr "x") none "t5") :=
  invoke_local_short_circuit stateWithMethod "t5" "svc" "m.echo" (.vStr "x") none none
    none sampleMethod rfl (fun _ h => nomatch h)

/-- A sample inbound request envelope. -/
def sampleRequest : RPCMessage := ⟨"peer", "svc", "t0", "m.echo", .vStr "x", .request⟩

/-- C1 counterexample: on a channel with zero transports and no local
registration, `invoke` does reject immediately with the no-transport error,
but — contrary to the claim — a pending-call entry (with its timer) has
been registered under the fresh trace id. -/
theorem no_transport_pending_leak_cx :
    (Channel.invoke sampleState "t1" "svc" "m.echo" (.vStr "x") none none none).2.2
        = .rejectedNow (.raw "No transports connected") ∧
    (Channel.invoke sampleState "t1" "svc" "m.echo" (.vStr "x") none none none).1.pendingCalls
        = [("t1", ⟨none, 30000⟩)] :=
  ⟨rfl, rfl⟩

/-- C1 as amended: with zero transports and no local registration, a call
whose input passes the caller validator rejects immediately with the plain
`Error("No transports connected")` and sends nothing, but a pending-call
entry (carrying the timeout timer) is registered under the call's trace id
and stays in the table. -/
theorem invoke_no_transport_fails_fast
    (st : ChannelState) (traceId targetId methodId : String) (input : JSValue)
    (inputSchema outputSchema : Option Schema) (timeout : Option Nat)
    (hm : getAssoc st.methods (targetId ++ ":" ++ methodId) = none)
    (hin : ∀ sch, inputSchema = some sch → ∃ v, sch input = Except.ok v)
    (ht : st.transports = []) :
    Channel.invoke st traceId targetId methodId input inputSchema outputSchema timeout
      = ({ st with pendingCalls := (setAssoc st.pendingCalls traceId
            ⟨outputSchema, effectiveTimeout timeout st.defaultTimeout⟩) }, [],
          .rejectedNow (.raw "No transports connected")) ∧
    getAssoc (Channel.invoke st traceId targetId methodId input inputSchema
        outputSchema timeout).1.pendingCalls traceId
      = some ⟨outputSchema, effectiveTimeout timeout st.defaultTimeout⟩ := by
  have h1 : Channel.invoke st traceId targetId methodId input inputSchema outputSchema
      timeout
      = ({ st with pendingCalls := (setAssoc st.pendingCalls traceId
            ⟨outputSchema, effectiveTimeout timeout st.defaultTimeout⟩) }, [],
          .rejectedNow (.raw "No transports connected")) := by
    rw [invoke_eq_afterCheck st traceId targetId methodId input inputSchema outputSchema
      timeout hin]
    simp [Channel.invokeAfterInputCheck, hm, ht]
  refine ⟨h1, ?_⟩
  rw [h1]
  exact getAssoc_setAssoc_self st.pendingCalls traceId _

/-- Witness for the amended C1 at a concrete channel. -/
theorem invoke_no_transport_fails_fast_witness :
    Channel.invoke sampleState "t1w" "svc" "m.echo" (.vStr "x") none none none
      = ({ sampleState with pendingCalls := (setAssoc sampleState.pendingCalls "t1w"
            ⟨none, effectiveTimeout none sampleState.defaultTimeout⟩) }, [],
          .rejectedNow (.raw "No transports connected")) ∧
    getAssoc (Channel.invoke sampleState "t1w" "svc" "m.echo" (.vStr "x") none none
        none).1.pendingCalls "t1w"
      = some ⟨none, effectiveTimeout none sampleState.defaultTimeout⟩ :=
  invoke_no_transport_fails_fast sampleState "t1w" "svc" "m.echo" (.vStr "x") none none
    none rfl (fun _ h => nomatch h) rfl

/-- C2 counterexample: the zero-transport rejection delivered to the caller
of `invoke` is a plain `Error`, not an `RPCError` taxonomy error. -/
theorem invoke_unclassified_rejection_cx :
    (Channel.invoke sampleState "t2" "svc" "m.echo" (.vStr "x") none none none).2.2
        = .rejectedNow (.raw "No transports connected") ∧
    JSError.isTaxonomy (.raw "No transports connected") = false :=
  ⟨rfl, rfl⟩

/-- A thrown value recorded by `runLocalTry` is either a Zod failure from
one of the three schema checkpoints or the exact value the handler threw. -/
theorem runLocalTry_error_cases (m : MethodDef) (input : JSValue)
    (osch : Option Schema) (e : JSError)
    (h : runLocalTry m input osch = .error e) :
    (∃ zm, e = .zod zm) ∨
    (∃ vin, m.input input = Except.ok vin ∧ m.handler vin = Except.error e) := by
  unfold runLocalTry at h
  cases hi : m.input input with
  | error ze =>
    rw [hi] at h
    dsimp only at h
    simp only [Except.error.injEq] at h
    exact Or.inl ⟨ze, h.symm⟩
  | ok vin =>
    rw [hi] at h
    dsimp only at h
    cases hh : m.handler vin with
    | error he =>
      rw [hh] at h
      dsimp only at h
      simp only [Except.error.injEq] at h
      subst h
      exact Or.inr ⟨vin, rfl, hh⟩
    | ok result =>
      rw [hh] at h
      dsimp only at h
      cases ho : m.output result with
      | error ze =>
        rw [ho] at h
        dsimp only at h
        simp only [Except.error.injEq] at h
        exact Or.inl ⟨ze, h.symm⟩
      | ok vout =>
        rw [ho] at h
        dsimp only at h
        cases osch with
        | none => simp at h
        | some sch =>
          dsimp only at h
          cases hs : sch vout with
          | error ze =>
            rw [hs] at h
            dsimp only at h
            simp only [Except.error.injEq] at h
            exact Or.inl ⟨ze, h.symm⟩
          | ok v => rw [hs] at h; simp at h

/-- A rejection coming out of the local short-circuit is either a taxonomy
error or the exact value the handler threw. -/
theorem runLocal_rejection (m : MethodDef) (input : JSValue) (osch : Option Schema)
    (traceId : String) (err : JSError)
    (h : runLocal m input osch traceId = .rejectedNow err) :
    err.isTaxonomy = true ∨
    (∃ vin, m.input input = Except.ok vin ∧ m.handler vin = Except.error err) := by
  unfold runLocal at h
  cases hr : runLocalTry m input osch with
  | ok v => rw [hr] at h; exact absurd h (by simp)
  | error e =>
    rw [hr] at h
    cases e with
    | zod zm =>
      simp only [InvokeOutcome.rejectedNow.injEq] at h
      subst h
      exact Or.inl rfl
    | rpc r =>
      simp only [InvokeOutcome.rejectedNow.injEq] at h
      subst h
      exact Or.inl rfl
    | raw msg =>
      simp only [InvokeOutcome.rejectedNow.injEq] at h
      subst h
      rcases runLocalTry_error_cases m input osch _ hr with ⟨zm, hzm⟩ | hsrc
      · exact absurd hzm (by simp)
      · exact Or.inr hsrc
    | nonError v =>
      simp only [InvokeOutcome.rejectedNow.injEq] at h
      subst h
      rcases runLocalTry_error_cases m input osch _ hr with ⟨zm, hzm⟩ | hsrc
      · exact absurd hzm (by simp)
      · exact Or.inr hsrc

/-- The stored success continuation of a pending call only ever rejects
with a taxonomy error (the output-validation failure). -/
theorem resolvePending_reject (entry : PendingEntry) (tid tid2 : String)
    (v : JSValue) (err : JSError)
    (h : resolvePending entry tid v = .rejectCaller tid2 err) :
    err.isTaxonomy = true := by
  unfold resolvePending at h
  cases hos : entry.outputSchema with
  | none => rw [hos] at h; simp at h
  | some sch =>
    rw [hos] at h
    dsimp only at h
    cases hs : sch v with
    | ok v2 => rw [hs] at h; simp at h
    | error ze =>
      rw [hs] at h
      dsimp only at h
      simp only [Event.rejectCaller.injEq] at h
      rw [← h.2]
      rfl

/-- C2 as amended: every failure the Channel itself delivers to a caller of
`invoke` — the synchronous rejection of `invoke`, the timeout timer, an
inbound error envelope, the output-validation failure on an inbound
response, or a disconnect drain — is an `RPCError` taxonomy error, with two
exceptions: on the local short-circuit path the exact value thrown by the
locally registered handler propagates unwrapped, and on the zero-transport
path the caller receives the plain `Error("No transports connected")`.
(A rejection of `transport.send` itself is additionally propagated to the
caller as-is by `Promise.all(...).catch(reject)`.) -/
theorem channel_rejections_classified
    (st : ChannelState) (traceId targetId methodId : String) (input : JSValue)
    (inputSchema outputSchema : Option Schema) (timeout : Option Nat)
    (message : RPCMessage) :
    (∀ err,
      (Channel.invoke st traceId targetId methodId input inputSchema outputSchema
          timeout).2.2 = .rejectedNow err →
      err.isTaxonomy = true ∨ err = .raw "No transports connected" ∨
      (∃ m vin, getAssoc st.methods (targetId ++ ":" ++ methodId) = some m ∧
        m.input input = Except.ok vin ∧ m.handler vin = Except.error err)) ∧
    (∀ tid err, Event.rejectCaller tid err ∈ (Channel.fireTimeout st traceId).2 →
      err.isTaxonomy = true) ∧
    (∀ tid err, Event.rejectCaller tid err ∈ (Channel.handleResponse st message).2 →
      err.isTaxonomy = true) ∧
    (∀ tid err, Event.rejectCaller tid err ∈ (Channel.handleError st message).2 →
      err.isTaxonomy = true) ∧
    (∀ tid err, Event.rejectCaller tid err ∈ (Channel.disconnect st).2 →
      err.isTaxonomy = true) := by
  refine ⟨?_, ?_, ?_, ?_, ?_⟩
  · intro err herr
    by_cases hok : ∀ sch, inputSchema = some sch → ∃ v, sch input = Except.ok v
    · rw [invoke_eq_afterCheck st traceId targetId methodId input inputSchema
        outputSchema timeout hok] at herr
      unfold Channel.invokeAfterInputCheck at herr
      dsimp only at herr
      cases hm : getAssoc st.methods (targetId ++ ":" ++ methodId) with
      | some m =>
        rw [hm] at herr
        dsimp only at herr
        rcases runLocal_rejection m input outputSchema traceId err herr with ht | hsrc
        · exact Or.inl ht
        · obtain ⟨vin, h1, h2⟩ := hsrc
          exact Or.inr (Or.inr ⟨m, vin, rfl, h1, h2⟩)
      | none =>
        rw [hm] at herr
        dsimp only at herr
        by_cases hlen : st.transports.length = 0
        · rw [if_pos hlen] at herr
          simp only [InvokeOutcome.rejectedNow.injEq] at herr
          exact Or.inr (Or.inl herr.symm)
        · rw [if_neg hlen] at herr
          exact absurd herr (by simp)
    · push_neg at hok
      obtain ⟨sch, hsch, hbad⟩ := hok
      cases hs : sch input with
      | ok v => exact (hbad v hs).elim
      | error ze =>
        subst hsch
        rw [invoke_input_fail_eq st traceId targetId methodId input sch
          outputSchema timeout ze hs] at herr
        simp only [InvokeOutcome.rejectedNow.injEq] at herr
        rw [← herr]
        exact Or.inl rfl
  · intro tid err hmem
    unfold Channel.fireTimeout at hmem
    cases hp : getAssoc st.pendingCalls traceId with
    | none => rw [hp] at hmem; simp at hmem
    | some entry =>
      rw [hp] at hmem
      dsimp only at hmem
      simp only [List.mem_singleton, Event.rejectCaller.injEq] at hmem
      rw [hmem.2]
      rfl
  · intro tid err hmem
    unfold Channel.handleResponse at hmem
    cases hp : getAssoc st.pendingCalls message.traceId with
    | none => rw [hp] at hmem; simp at hmem
    | some pending =>
      rw [hp] at hmem
      dsimp only at hmem
      simp only [List.mem_cons, List.not_mem_nil, or_false] at hmem
      rcases hmem with h1 | h2
      · exact absurd h1 (by simp)
      · exact resolvePending_reject pending message.traceId tid message.payload err h2.symm
  · intro tid err hmem
    unfold Channel.handleError at hmem
    cases hp : getAssoc st.pendingCalls message.traceId with
    | none => rw [hp] at hmem; simp at hmem
    | some pending =>
      rw [hp] at hmem
      dsimp only at hmem
      simp only [List.mem_cons, List.not_mem_nil, or_false] at hmem
      rcases hmem with h1 | h2
      · exact absurd h1 (by simp)
      · simp only [Event.rejectCaller.injEq] at h2
        rw [h2.2]
        rfl
  · intro tid err hmem
    unfold Channel.disconnect at hmem
    dsimp only at hmem
    rw [List.mem_append] at hmem
    rcases hmem with hd | hm2
    · rw [List.mem_flatMap] at hd
      obtain ⟨p, _, hev⟩ := hd
      simp only [List.mem_cons, List.not_mem_nil, or_false] at hev
      rcases hev with h1 | h2
      · exact absurd h1 (by simp)
      · simp only [Event.rejectCaller.injEq] at h2
        rw [h2.2]
        rfl
    · rw [List.mem_map] at hm2
      obtain ⟨t, _, hev⟩ := hm2
      exact absurd hev.symm (by simp)

/-- Witness for the amended C2: a concrete failing-validation call delivers
a taxonomy error. -/
theorem channel_rejections_classified_witness :
    JSError.isTaxonomy (.rpc (mkValidationError ("Input validation failed: " ++ "bad input")
        (some "t2w"))) = true ∨
    JSError.rpc (mkValidationError ("Input validation failed: " ++ "bad input")
        (some "t2w")) = .raw "No transports connected" ∨
    (∃ m vin, getAssoc stateWithMethod.methods ("svc" ++ ":" ++ "m.echo") = some m ∧
      m.input (.vStr "x") = Except.ok vin ∧
      m.handler vin = Except.error (.rpc (mkValidationError
        ("Input validation failed: " ++ "bad input") (some "t2w")))) :=
  (channel_rejections_classified stateWithMethod "t2w" "svc" "m.echo" (.vStr "x")
    (some failSchema) none none sampleRequest).1 _ rfl

/-- C6: a remote call registers its pending entry with the supplied timeout
override (or the channel default), and when the timer fires before any
matching response or error, the call is rejected with a `TimeoutError`
carrying exactly the message `Method call timed out after {t}ms` for the
effective timeout `t` and the call's trace id, and the entry is removed
from the table. -/
theorem remote_call_timeout_fidelity
    (st st1 : ChannelState) (evs : List Event) (outcome : InvokeOutcome)
    (traceId targetId methodId : String) (input : JSValue)
    (inputSchema outputSchema : Option Schema) (timeout : Option Nat)
    (hm : getAssoc st.methods (targetId ++ ":" ++ methodId) = none)
    (hin : ∀ sch, inputSchema = some sch → ∃ v, sch input = Except.ok v)
    (hrun : Channel.invoke st traceId targetId methodId input inputSchema outputSchema
      timeout = (st1, evs, outcome)) :
    getAssoc st1.pendingCalls traceId
        = some ⟨outputSchema, effectiveTimeout timeout st.defaultTimeout⟩ ∧
    Channel.fireTimeout st1 traceId
      = ({ st1 with pendingCalls := eraseAssoc st1.pendingCalls traceId },
          [.rejectCaller traceId (.rpc (mkTimeoutError
            ("Method call timed out after "
              ++ toString (effectiveTimeout timeout st.defaultTimeout) ++ "ms")
            (some traceId)))]) ∧
    getAssoc (Channel.fireTimeout st1 traceId).1.pendingCalls traceId = none := by
  rw [invoke_eq_afterCheck st traceId targetId methodId input inputSchema outputSchema
    timeout hin] at hrun
  unfold Channel.invokeAfterInputCheck at hrun
  dsimp only at hrun
  rw [hm] at hrun
  dsimp only at hrun
  have hst1 : st1 = { st with pendingCalls := (setAssoc st.pendingCalls traceId
      ⟨outputSchema, effectiveTimeout timeout st.defaultTimeout⟩) } := by
    by_cases hlen : st.transports.length = 0
    · rw [if_pos hlen] at hrun
      exact (congrArg Prod.fst hrun).symm
    · rw [if_neg hlen] at hrun
      exact (congrArg Prod.fst hrun).symm
  subst hst1
  have hget : getAssoc (setAssoc st.pendingCalls traceId
      ⟨outputSchema, effectiveTimeout timeout st.defaultTimeout⟩) traceId
      = some ⟨outputSchema, effectiveTimeout timeout st.defaultTimeout⟩ :=
    getAssoc_setAssoc_self st.pendingCalls traceId _
  refine ⟨hget, ?_, ?_⟩
  · unfold Channel.fireTimeout
    rw [hget]
  · unfold Channel.fireTimeout
    rw [hget]
    exact getAssoc_eraseAssoc_self _ traceId

/-- A sample channel state holding one pending call with a 50ms timer. -/
def state6 : ChannelState := ⟨"chan-a", 30000, [], [("t6", ⟨none, 50⟩)], [], true⟩

/-- Witness for C6 with a concrete 50ms override. -/
theorem remote_call_timeout_fidelity_witness :
    getAssoc state6.pendingCalls "t6"
        = some ⟨none, effectiveTimeout (some 50) sampleState.defaultTimeout⟩ ∧
    Channel.fireTimeout state6 "t6"
      = ({ state6 with pendingCalls := eraseAssoc state6.pendingCalls "t6" },
          [.rejectCaller "t6" (.rpc (mkTimeoutError
            ("Method call timed out after "
              ++ toString (effectiveTimeout (some 50) sampleState.defaultTimeout) ++ "ms")
            (some "t6")))]) ∧
    getAssoc (Channel.fireTimeout state6 "t6").1.pendingCalls "t6" = none :=
  remote_call_timeout_fidelity sampleState state6 []
    (.rejectedNow (.raw "No transports connected")) "t6" "svc" "m.echo" (.vStr "x")
    none none (some 50) rfl (fun _ h => nomatch h) rfl

theorem handleResponse_no_entry (st : ChannelState) (message : RPCMessage)
    (h : getAssoc st.pendingCalls message.traceId = none) :
    Channel.handleResponse st message = (st, []) := by
  unfold Channel.handleResponse
  rw [h]

theorem handleError_no_entry (st : ChannelState) (message : RPCMessage)
    (h : getAssoc st.pendingCalls message.traceId = none) :
    Channel.handleError st message = (st, []) := by
  unfold Channel.handleError
  rw [h]

theorem handleResponse_removes (st : ChannelState) (message : RPCMessage) :
    getAssoc (Channel.handleResponse st message).1.pendingCalls message.traceId = none := by
  unfold Channel.handleResponse
  cases hp : getAssoc st.pendingCalls message.traceId with
  | none => exact hp
  | some pending => exact getAssoc_eraseAssoc_self st.pendingCalls message.traceId

theorem handleError_removes (st : ChannelState) (message : RPCMessage) :
    getAssoc (Channel.handleError st message).1.pendingCalls message.traceId = none := by
  unfold Channel.handleError
  cases hp : getAssoc st.pendingCalls message.traceId with
  | none => exact hp
  | some pending => exact getAssoc_eraseAssoc_self st.pendingCalls message.traceId

theorem fireTimeout_removes (st : ChannelState) (traceId : String) :
    getAssoc (Channel.fireTimeout st traceId).1.pendingCalls traceId = none := by
  unfold Channel.fireTimeout
  cases hp : getAssoc st.pendingCalls traceId with
  | none => exact hp
  | some entry => exact getAssoc_eraseAssoc_self st.pendingCalls traceId

/-- C3: once a pending call is gone from the table — because no entry ever
matched, or because a response, an error envelope, or the timer already
resolved it — any further inbound response or error envelope bearing the
same trace id leaves the state unchanged and produces no effect at all (no
resolve, no reject, no exception); and whenever an entry is found, its
timer is cancelled as part of the non-timeout resolution. -/
theorem at_most_one_resolution (st : ChannelState) (message : RPCMessage) :
    (getAssoc st.pendingCalls message.traceId = none →
      Channel.handleResponse st message = (st, []) ∧
      Channel.handleError st message = (st, [])) ∧
    getAssoc (Channel.handleResponse st message).1.pendingCalls message.traceId = none ∧
    getAssoc (Channel.handleError st message).1.pendingCalls message.traceId = none ∧
    getAssoc (Channel.fireTimeout st message.traceId).1.pendingCalls message.traceId
        = none ∧
    Channel.handleResponse (Channel.handleResponse st message).1 message
        = ((Channel.handleResponse st message).1, []) ∧
    Channel.handleError (Channel.handleResponse st message).1 message
        = ((Channel.handleResponse st message).1, []) ∧
    Channel.handleResponse (Channel.handleError st message).1 message
        = ((Channel.handleError st message).1, []) ∧
    Channel.handleError (Channel.handleError st message).1 message
        = ((Channel.handleError st message).1, []) ∧
    Channel.handleResponse (Channel.fireTimeout st message.traceId).1 message
        = ((Channel.fireTimeout st message.traceId).1, []) ∧
    Channel.handleError (Channel.fireTimeout st message.traceId).1 message
        = ((Channel.fireTimeout st message.traceId).1, []) ∧
    (∀ entry, getAssoc st.pendingCalls message.traceId = some entry →
      Event.clearTimer message.traceId ∈ (Channel.handleResponse st message).2 ∧
      Event.clearTimer message.traceId ∈ (Channel.handleError st message).2) := by
  refine ⟨fun h => ⟨handleResponse_no_entry st message h, handleError_no_entry st message h⟩,
    handleResponse_removes st message, handleError_removes st message,
    fireTimeout_removes st message.traceId,
    handleResponse_no_entry _ message (handleResponse_removes st message),
    handleError_no_entry _ message (handleResponse_removes st message),
    handleResponse_no_entry _ message (handleError_removes st message),
    handleError_no_entry _ message (handleError_removes st message),
    handleResponse_no_entry _ message (fireTimeout_removes st message.traceId),
    handleError_no_entry _ message (fireTimeout_removes st message.traceId),
    ?_⟩
  intro entry hp
  constructor
  · unfold Channel.handleResponse
    rw [hp]
    exact List.mem_cons_self _ _
  · unfold Channel.handleError
    rw [hp]
    exact List.mem_cons_self _ _

/-- Witness for C3 on a channel whose pending table holds the trace id. -/
theorem at_most_one_resolution_witness :
    Event.clearTimer "t6"
        ∈ (Channel.handleResponse state6 ⟨"peer", "chan-a", "t6", "m.echo", .vStr "y",
            .response⟩).2 ∧
    Event.clearTimer "t6"
        ∈ (Channel.handleError state6 ⟨"peer", "chan-a", "t6", "m.echo", .vStr "y",
            .response⟩).2 :=
  (at_most_one_resolution state6 ⟨"peer", "chan-a", "t6", "m.echo", .vStr "y",
    .response⟩).2.2.2.2.2.2.2.2.2.2 ⟨none, 50⟩ rfl

/-- The `code` field of the wire payload of a serialized error is the
error's own code. -/
theorem getField_code_toJSON (e : RPCErrorV) :
    (RPCErrorV.toJSON e).getField "code" = e.code := rfl

/-- The `message` field of the wire payload of a serialized error is the
error's own message string. -/
theorem getField_message_toJSON (e : RPCErrorV) :
    (RPCErrorV.toJSON e).getField "message" = .vStr e.message := rfl

/-- Reconstruction after a wire crossing recovers `code` and `message`
verbatim, provided the code is truthy and the message nonempty. -/
theorem reconstructError_roundtrip (e : RPCErrorV) (tid : String)
    (hcode : e.code.truthy = true) (hmsg : e.message ≠ "") :
    reconstructError (RPCErrorV.toJSON e) tid = mkRPCError e.code e.message (some tid) := by
  unfold reconstructError
  rw [getField_code_toJSON, getField_message_toJSON]
  unfold jsOr
  rw [if_pos hcode]
  have ht : (JSValue.vStr e.message).truthy = true := by
    simp [JSValue.truthy, hmsg]
  rw [if_pos ht]
  rfl

/-- A sample error whose message is the empty string. -/
def emptyMessageError : RPCErrorV := mkRPCError (.vStr "INTERNAL_ERROR") "" (some "t7")

/-- A sample channel holding a pending call under trace id t7. -/
def pendingState7 : ChannelState := ⟨"chan-a", 30000, [], [("t7", ⟨none, 30000⟩)], [0], true⟩

/-- The error envelope carrying the serialization of `emptyMessageError`. -/
def errEnvelope7 : RPCMessage :=
  ⟨"peer", "chan-a", "t7", "m.echo", emptyMessageError.toJSON, .error⟩

/-- C7 counterexample: a taxonomy error with an empty message does not
round-trip — the receiving peer delivers the fallback message
`Unknown error occurred` to the pending call instead of the empty string. -/
theorem error_roundtrip_cx :
    (Channel.handleError pendingState7 errEnvelope7).2
      = [.clearTimer "t7", .rejectCaller "t7" (.rpc (mkRPCError (.vStr "INTERNAL_ERROR")
          "Unknown error occurred" (some "t7")))] ∧
    emptyMessageError.message = "" ∧
    "Unknown error occurred" ≠ "" :=
  ⟨rfl, rfl, by decide⟩

/-- C7 as amended: serializing a taxonomy error and reconstructing it on
the receiving peer delivers the error's `code` and `message` verbatim to
the pending call, provided the code is a truthy value and the message is
nonempty (a falsy code or empty message is replaced by the UNKNOWN_ERROR /
unknown-message fallback on reconstruction). -/
theorem error_roundtrip (st : ChannelState) (message : RPCMessage) (e : RPCErrorV)
    (entry : PendingEntry)
    (hp : getAssoc st.pendingCalls message.traceId = some entry)
    (hpayload : message.payload = RPCErrorV.toJSON e)
    (hcode : e.code.truthy = true) (hmsg : e.message ≠ "") :
    (Channel.handleError st message).2
      = [.clearTimer message.traceId,
          .rejectCaller message.traceId (.rpc (mkRPCError e.code e.message
            (some message.traceId)))] := by
  unfold Channel.handleError
  rw [hp]
  dsimp only
  rw [hpayload, reconstructError_roundtrip e message.traceId hcode hmsg]

/-- The error envelope carrying a serialized validation error. -/
def errEnvelope7b : RPCMessage :=
  ⟨"peer", "chan-a", "t7", "m.echo", (mkValidationError "boom" (some "orig")).toJSON,
    .error⟩

/-- Witness for the amended C7: code and message cross the wire verbatim. -/
theorem error_roundtrip_witness :
    (Channel.handleError pendingState7 errEnvelope7b).2
      = [.clearTimer "t7", .rejectCaller "t7" (.rpc (mkRPCError (.vStr "VALIDATION_ERROR")
          "boom" (some "t7")))] :=
  error_roundtrip pendingState7 errEnvelope7b (mkValidationError "boom" (some "orig"))
    ⟨none, 30000⟩ rfl rfl rfl (by decide)

theorem sublist_drain (l : List (String × PendingEntry)) (tid : String)
    (entry : PendingEntry) (h : (tid, entry) ∈ l) :
    List.Sublist [Event.clearTimer tid,
      Event.rejectCaller tid (.rpc (mkTimeoutError "Connection closed" (some tid)))]
      (l.flatMap (fun p => [Event.clearTimer p.1,
        Event.rejectCaller p.1 (.rpc (mkTimeoutError "Connection closed" (some p.1)))])) := by
  induction l with
  | nil => cases h
  | cons p tl ih =>
    rw [List.flatMap_cons]
    rcases List.mem_cons.mp h with heq | hmem
    · rw [← heq]
      exact List.sublist_append_left _ _
    · exact (ih hmem).trans (List.sublist_append_right _ _)

/-- C8: `disconnect` drains the pending-call table — every entry is
rejected with the timeout-class `TimeoutError("Connection closed")`
carrying that entry's trace id, its timer cleared first — and afterwards
the table is empty, every attached transport has been disconnected, the
transport set is empty, and the channel is marked disconnected. -/
theorem disconnect_drains (st : ChannelState) :
    (Channel.disconnect st).1.pendingCalls = [] ∧
    (Channel.disconnect st).1.transports = [] ∧
    (Channel.disconnect st).1.connected = false ∧
    (∀ tid entry, (tid, entry) ∈ st.pendingCalls →
      List.Sublist [Event.clearTimer tid,
        Event.rejectCaller tid (.rpc (mkTimeoutError "Connection closed" (some tid)))]
        (Channel.disconnect st).2) ∧
    (∀ t ∈ st.transports, Event.transportDisconnect t ∈ (Channel.disconnect st).2) ∧
    (∀ tid err, Event.rejectCaller tid err ∈ (Channel.disconnect st).2 →
      err = .rpc (mkTimeoutError "Connection closed" (some tid))) := by
  refine ⟨rfl, rfl, rfl, ?_, ?_, ?_⟩
  · intro tid entry h
    exact (sublist_drain st.pendingCalls tid entry h).trans
      (List.sublist_append_left _ _)
  · intro t ht
    unfold Channel.disconnect
    dsimp only
    rw [List.mem_append]
    exact Or.inr (List.mem_map.mpr ⟨t, ht, rfl⟩)
  · intro tid err hmem
    unfold Channel.disconnect at hmem
    dsimp only at hmem
    rw [List.mem_append] at hmem
    rcases hmem with hd | hm2
    · rw [List.mem_flatMap] at hd
      obtain ⟨p, _, hev⟩ := hd
      simp only [List.mem_cons, List.not_mem_nil, or_false] at hev
      rcases hev with h1 | h2
      · exact absurd h1 (by simp)
      · simp only [Event.rejectCaller.injEq] at h2
        rw [h2.2, h2.1]
    · rw [List.mem_map] at hm2
      obtain ⟨t, _, hev⟩ := hm2
      exact absurd hev.symm (by simp)

/-- A sample channel with one pending call and one attached transport. -/
def state8 : ChannelState := ⟨"chan-a", 30000, [], [("t8", ⟨none, 100⟩)], [3], true⟩

/-- Witness for C8 on a concrete channel. -/
theorem disconnect_drains_witness :
    List.Sublist [Event.clearTimer "t8",
      Event.rejectCaller "t8" (.rpc (mkTimeoutError "Connection closed" (some "t8")))]
      (Channel.disconnect state8).2 ∧
    Event.transportDisconnect 3 ∈ (Channel.disconnect state8).2 :=
  ⟨(disconnect_drains state8).2.2.2.1 "t8" ⟨none, 100⟩ (List.mem_singleton.mpr rfl),
    (disconnect_drains state8).2.2.2.2.1 3 (List.mem_singleton.mpr rfl)⟩

/-- C9: an inbound request envelope for an unregistered
`(targetId, methodId)` is answered — not silently dropped — with an error
envelope addressed to the original caller, bearing the same trace id and
method id, whose payload carries code METHOD_NOT_FOUND and a message naming
the requested method id; with all sends succeeding it is delivered to every
attached transport. -/
theorem unknown_method_error_envelope (st : ChannelState) (beh : SendBehaviour)
    (message : RPCMessage)
    (hm : getAssoc st.methods (message.targetId ++ ":" ++ message.methodId) = none)
    (hok : ∀ t m, beh t m = none) :
    Channel.handleRequest st beh message
      = st.transports.map (fun t => Event.sendEnvelope t
          ⟨st.channelId, message.callerId, message.traceId, message.methodId,
            (mkMethodNotFoundError message.methodId (some message.traceId)).toJSON,
            .error⟩) ∧
    ((mkMethodNotFoundError message.methodId (some message.traceId)).toJSON).getField
        "code" = .vStr "METHOD_NOT_FOUND" ∧
    ((mkMethodNotFoundError message.methodId (some message.traceId)).toJSON).getField
        "message"
        = .vStr ("Method " ++ apos ++ message.methodId ++ apos ++ " not found") ∧
    (∀ t ∈ st.transports, Event.sendEnvelope t
        ⟨st.channelId, message.callerId, message.traceId, message.methodId,
          (mkMethodNotFoundError message.methodId (some message.traceId)).toJSON,
          .error⟩
        ∈ Channel.handleRequest st beh message) := by
  have h1 : Channel.handleRequest st beh message
      = st.transports.map (fun t => Event.sendEnvelope t
          ⟨st.channelId, message.callerId, message.traceId, message.methodId,
            (mkMethodNotFoundError message.methodId (some message.traceId)).toJSON,
            .error⟩) := by
    unfold Channel.handleRequest
    dsimp only
    rw [hm]
    dsimp only
    unfold Channel.sendError
    dsimp only
    rw [sendSeq_all_ok st.transports beh _ (fun t => hok t _)]
  refine ⟨h1, rfl, rfl, ?_⟩
  intro t ht
  rw [h1]
  exact List.mem_map.mpr ⟨t, ht, rfl⟩

/-- A send behaviour whose sends always succeed. -/
def behOk : SendBehaviour := fun _ _ => none

/-- A sample channel with no registered methods and one transport. -/
def state9 : ChannelState := ⟨"chan-b", 30000, [], [], [5], true⟩

/-- A sample inbound request for an unregistered method. -/
def request9 : RPCMessage := ⟨"peer", "svc", "t9", "m.missing", .vStr "x", .request⟩

/-- Witness for C9 on a concrete channel and request. -/
theorem unknown_method_error_envelope_witness :
    Event.sendEnvelope 5 ⟨"chan-b", "peer", "t9", "m.missing",
        (mkMethodNotFoundError "m.missing" (some "t9")).toJSON, .error⟩
      ∈ Channel.handleRequest state9 behOk request9 :=
  (unknown_method_error_envelope state9 behOk request9 rfl (fun _ _ => rfl)).2.2.2 5
    (List.mem_singleton.mpr rfl)

/-- Every event of a sequential send loop is a `send` of the loop's own
message to one of the transports. -/
theorem sendSeq_events (ts : List Nat) (beh : SendBehaviour) (msg : RPCMessage)
    (ev : Event) (h : ev ∈ (sendSeq ts beh msg).1) :
    ∃ t, ev = Event.sendEnvelope t msg := by
  induction ts with
  | nil => cases h
  | cons t tl ih =>
    unfold sendSeq at h
    cases hb : beh t msg with
    | some e =>
      rw [hb] at h
      dsimp only at h
      simp only [List.mem_singleton] at h
      exact ⟨t, h⟩
    | none =>
      rw [hb] at h
      dsimp only at h
      rcases List.mem_cons.mp h with h1 | h2
      · exact ⟨t, h1⟩
      · exact ih h2

/-- A sample channel with the echo method registered and one transport. -/
def stateWMT : ChannelState :=
  ⟨"chan-a", 30000, [("svc:m.echo", sampleMethod)], [], [0], true⟩

/-- A sample inbound request for the registered echo method. -/
def request10 : RPCMessage := ⟨"peer", "svc", "t10", "m.echo", .vStr "x", .request⟩

/-- A send behaviour that rejects response sends with a Zod failure and
lets every other send succeed. -/
def behZodOnResponse : SendBehaviour := fun _ m =>
  match m.type with
  | .response => some (.zod "response schema mismatch")
  | _ => none

/-- C10 counterexample: when sending the successful response rejects with a
value that is neither a taxonomy error nor an `Error` — here a Zod
validation failure — the outbound error envelope carries code
VALIDATION_ERROR, not INTERNAL_ERROR as the claim states. -/
theorem response_send_failure_cx :
    Channel.handleRequest stateWMT behZodOnResponse request10
      = [.sendEnvelope 0 ⟨"chan-a", "peer", "t10", "m.echo", .vStr "x", .response⟩,
          .sendEnvelope 0 ⟨"chan-a", "peer", "t10", "m.echo",
            (mkValidationError "response schema mismatch" (some "t10")).toJSON,
            .error⟩] ∧
    JSError.isTaxonomy (.zod "response schema mismatch") = false ∧
    ((mkValidationError "response schema mismatch" (some "t10")).toJSON).getField "code"
        = .vStr "VALIDATION_ERROR" ∧
    JSValue.vStr "VALIDATION_ERROR" ≠ JSValue.vStr "INTERNAL_ERROR" := by
  refine ⟨rfl, rfl, rfl, ?_⟩
  intro h
  injection h with h2
  exact absurd h2 (by decide)

/-- C10 as amended: when the handler succeeded and its output validated but
sending the response envelope rejects, the rejection is caught in the same
failure boundary as handler errors and an error envelope is sent for the
same trace id — the rejection forwarded as-is if it is a taxonomy error,
wrapped as VALIDATION_ERROR if it is a Zod validation failure, and wrapped
as INTERNAL_ERROR otherwise. -/
theorem response_send_failure_boundary (st : ChannelState) (beh : SendBehaviour)
    (message : RPCMessage) (m : MethodDef) (vin res vout : JSValue) (e : JSError)
    (hm : getAssoc st.methods (message.targetId ++ ":" ++ message.methodId) = some m)
    (hin : m.input message.payload = Except.ok vin)
    (hh : m.handler vin = Except.ok res)
    (hout : m.output res = Except.ok vout)
    (hsend : (sendSeq st.transports beh
      ⟨st.channelId, message.callerId, message.traceId, message.methodId, vout,
        .response⟩).2 = some e) :
    Channel.handleRequest st beh message
      = (sendSeq st.transports beh
          ⟨st.channelId, message.callerId, message.traceId, message.methodId, vout,
            .response⟩).1
        ++ Channel.sendError st beh message (classifyCaught e message.traceId) ∧
    (∀ err t env, Event.sendEnvelope t env ∈ Channel.sendError st beh message err →
      env.traceId = message.traceId ∧ env.targetId = message.callerId ∧
      env.methodId = message.methodId ∧ env.type = .error ∧
      env.payload = RPCErrorV.toJSON err) ∧
    (∀ r, classifyCaught (.rpc r) message.traceId = r) ∧
    (∀ zm, classifyCaught (.zod zm) message.traceId
        = mkValidationError zm (some message.traceId)) ∧
    (∀ rm, classifyCaught (.raw rm) message.traceId
        = mkRPCError (.vStr "INTERNAL_ERROR") rm (some message.traceId)) := by
  refine ⟨?_, ?_, fun r => rfl, fun zm => rfl, fun rm => rfl⟩
  · unfold Channel.handleRequest
    dsimp only
    rw [hm]
    dsimp only
    rw [hin]
    dsimp only
    rw [hh]
    dsimp only
    rw [hout]
    dsimp only
    rw [hsend]
  · intro err t env hmem
    unfold Channel.sendError at hmem
    dsimp only at hmem
    rcases hsent : (sendSeq st.transports beh
        ⟨st.channelId, message.callerId, message.traceId, message.methodId,
          RPCErrorV.toJSON err, .error⟩).2 with _ | e2
    · rw [hsent] at hmem
      dsimp only at hmem
      obtain ⟨t2, hev⟩ := sendSeq_events _ _ _ _ hmem
      simp only [Event.sendEnvelope.injEq] at hev
      rw [hev.2]
      exact ⟨rfl, rfl, rfl, rfl, rfl⟩
    · rw [hsent] at hmem
      dsimp only at hmem
      rw [List.mem_append] at hmem
      rcases hmem with hs | hc
      · obtain ⟨t2, hev⟩ := sendSeq_events _ _ _ _ hs
        simp only [Event.sendEnvelope.injEq] at hev
        rw [hev.2]
        exact ⟨rfl, rfl, rfl, rfl, rfl⟩
      · simp only [List.mem_singleton] at hc
        exact absurd hc (by simp)

/-- Witness for the amended C10 on a concrete channel, request and
send behaviour. -/
theorem response_send_failure_boundary_witness :
    Channel.handleRequest stateWMT behZodOnResponse request10
      = (sendSeq stateWMT.transports behZodOnResponse
          ⟨stateWMT.channelId, request10.callerId, request10.traceId,
            request10.methodId, .vStr "x", .response⟩).1
        ++ Channel.sendError stateWMT behZodOnResponse request10
            (classifyCaught (.zod "response schema mismatch") request10.traceId) :=
  (response_send_failure_boundary stateWMT behZodOnResponse request10 sampleMethod
    (.vStr "x") (.vStr "x") (.vStr "x") (.zod "response schema mismatch")
    rfl rfl rfl rfl rfl).1
